import Mathlib

/-!
Shallow embedding of `src/macos_sign_and_notarize.py` (artichoke/nightly).

The script orchestrates subprocess invocations (`security`, `codesign`,
`hdiutil`, `xcrun notarytool`, `xcrun stapler`, `spctl`, `du`, `sw_vers`).
We model a run as a function of

  * an `Env` capturing the process environment (environment variables,
    generated secrets, temp-directory names) and the outcomes of the few
    non-subprocess fallible operations (base64 decode, URL validation,
    JSON parse of the fetched log file), and
  * a `Tools : Nat → ProcResult` oracle giving the exit code / stdout /
    stderr of the n-th subprocess invocation of the run.

Every embedded function has type `Step α := Tools → Nat → Res α` where
`Res α := Except PyErr α × Nat × List Event`: the Python result or raised
exception, the next subprocess index, and the trace of externally visible
actions (subprocess invocations, retry backoff sleeps, filesystem writes).
Python `try/finally` and exception propagation are modelled by explicit
`Except` plumbing (`bindS` stops at the first error, as Python unwinding
does).  Plain `print` calls have no effect on control flow or on external
state and are not recorded in the trace.
-/

namespace MacosSign

/-! ### Python string primitives (on `List Char` so proofs can compute) -/

/-- Python `str.strip()`: drop whitespace from both ends. -/
def pyStrip (s : String) : String :=
  ⟨((s.data.dropWhile Char.isWhitespace).reverse.dropWhile Char.isWhitespace).reverse⟩

/-- Python `str.strip('"')`: drop double-quote characters from both ends. -/
def pyStripQuotes (s : String) : String :=
  ⟨((s.data.dropWhile (· = '"')).reverse.dropWhile (· = '"')).reverse⟩

/-- Python `str.startswith(p)`. -/
def pyStartsWith (s p : String) : Bool :=
  p.data.isPrefixOf s.data

/-- Python `str.removeprefix(p)`: drop `p` when it is a leading segment. -/
def pyDropLeading (s p : String) : String :=
  if p.data.isPrefixOf s.data then ⟨s.data.drop p.data.length⟩ else s

/-- Substring test, Python `needle in hay`. -/
def listContainsSub (hay needle : List Char) : Bool :=
  match hay with
  | [] => needle.isEmpty
  | _ :: t => needle.isPrefixOf hay || listContainsSub t needle

/-- Python `needle in hay` on strings. -/
def strContains (hay needle : String) : Bool :=
  listContainsSub hay.data needle.data

def splitLinesAux : List Char → List Char → List (List Char)
  | [], acc => [acc.reverse]
  | c :: rest, acc =>
    if c = '\n' then acc.reverse :: splitLinesAux rest []
    else splitLinesAux rest (c :: acc)

/-- Python `str.splitlines()`, simplified to splitting on `'\n'`.  (Python
also recognises `'\r'` and other line terminators, and returns `[]` on the
empty string / drops a trailing empty line; the extra empty-string lines
produced here are inert in every use below.) -/
def pySplitLines (s : String) : List String :=
  (splitLinesAux s.data []).map fun l => ⟨l⟩

/-- Python truthiness of an optional string (`os.getenv` result, walrus
tests, `if not x`): `None` and `""` are falsy. -/
def truthy : Option String → Option String
  | none => none
  | some s => if s = "" then none else some s

/-! ### Process / error / trace model -/

/-- Result of one subprocess invocation, as observed through
`subprocess.run(..., text=True)`. -/
structure ProcResult where
  returncode : Int
  stdout : String
  stderr : String
  deriving Repr, DecidableEq

/-- Oracle giving the outcome of the n-th subprocess invocation of a run. -/
abbrev Tools := Nat → ProcResult

/-- The Python exceptions that can cross the boundaries the claims are
about. -/
inductive PyErr where
  /-- `subprocess.CalledProcessError` from a `check=True` invocation: the
  command, its exit code, and its captured output. -/
  | calledProcessError (cmd : List String) (returncode : Int) (output : String)
  /-- `NotaryToolError` raised by `run_notarytool` / `notarize_bundle`. -/
  | notaryToolError (msg : String)
  /-- `NotaryToolInternalServerError` (retryable HTTP 500 signature). -/
  | notaryToolInternalServerError (msg : String)
  /-- `ValueError` (bad `run_notarytool` command, `parse_args` checks). -/
  | valueError (msg : String)
  /-- `MissingNotarizePasswordError`. -/
  | missingNotarizePassword
  /-- `MissingCodeSigningCertificateError`. -/
  | missingCodeSigningCertificate
  /-- `MissingCodeSigningCertificatePassphraseError`. -/
  | missingCodeSigningCertificatePassphrase
  /-- `json.JSONDecodeError` from `json.load` on the fetched log. -/
  | jsonError
  /-- network failure of the `urlopen` icon fetch. -/
  | urlFetchError
  /-- `NameError` (the `attach_disk_image` cleanup path when attach failed
  before `mounted_image` was bound). -/
  | nameError
  deriving Repr, DecidableEq

instance {ε α : Type} [DecidableEq ε] [DecidableEq α] : DecidableEq (Except ε α) := fun a b =>
  match a, b with
  | .ok x, .ok y =>
    if h : x = y then isTrue (by rw [h]) else isFalse (by intro hc; cases hc; exact h rfl)
  | .error x, .error y =>
    if h : x = y then isTrue (by rw [h]) else isFalse (by intro hc; cases hc; exact h rfl)
  | .ok _, .error _ => isFalse (by intro hc; cases hc)
  | .error _, .ok _ => isFalse (by intro hc; cases hc)

/-- Externally visible actions of a run. -/
inductive Event where
  /-- a subprocess invocation with the given argument vector. -/
  | run (cmd : List String)
  /-- a backoff sleep between retry attempts (`stamina`'s exponential
  backoff wait; durations are wall-clock behaviour and are not modelled). -/
  | sleep
  /-- a filesystem mutation (file write / copy / unlink / mkdir / rmtree). -/
  | fs (op : String) (path : String)
  deriving Repr, DecidableEq

def Event.isRun : Event → Bool
  | .run _ => true
  | _ => false

/-- Number of subprocess invocations recorded in a trace. -/
def countRuns (tr : List Event) : Nat :=
  (tr.filter Event.isRun).length

abbrev Res (α : Type) : Type := Except PyErr α × Nat × List Event

abbrev Step (α : Type) : Type := Tools → Nat → Res α

def pureS {α : Type} (a : α) : Step α := fun _ k => (.ok a, k, [])

def failS {α : Type} (e : PyErr) : Step α := fun _ k => (.error e, k, [])

/-- Sequencing with Python unwinding semantics: an exception in `x` skips
`f` entirely. -/
def bindS {α β : Type} (x : Step α) (f : α → Step β) : Step β := fun tools k =>
  match x tools k with
  | (.error e, k1, tr) => (.error e, k1, tr)
  | (.ok a, k1, tr) =>
    match f a tools k1 with
    | (r, k2, tr2) => (r, k2, tr ++ tr2)

/-- `subprocess.run(cmd, check=True, ...)`: consume the next tool outcome;
raise `CalledProcessError` on a non-zero exit. -/
def runSubChecked (cmd : List String) : Step ProcResult := fun tools k =>
  let p := tools k
  if p.returncode = 0 then (.ok p, k + 1, [.run cmd])
  else (.error (.calledProcessError cmd p.returncode p.stdout), k + 1, [.run cmd])

/-- The `stamina.retry` decorator: run `f`; on an exception selected by
`retryable`, sleep (exponential backoff) and try again.  `fuel` is the
number of retries remaining after the current attempt, so `attempts=3`
corresponds to `fuel = 2`. -/
def retryLoop {α : Type} (retryable : PyErr → Bool) (f : Step α) : Nat → Step α
  | 0 => f
  | n + 1 => fun tools k =>
    match f tools k with
    | (.ok a, k1, tr) => (.ok a, k1, tr)
    | (.error e, k1, tr) =>
      if retryable e then
        match retryLoop retryable f n tools k1 with
        | (r, k2, tr2) => (r, k2, tr ++ Event.sleep :: tr2)
      else (.error e, k1, tr)

def isCalledProcessError : PyErr → Bool
  | .calledProcessError _ _ _ => true
  | _ => false

def isInternalServerError : PyErr → Bool
  | .notaryToolInternalServerError _ => true
  | _ => false

/-! ### Environment -/

structure Args where
  resources : List String
  binaries : List String
  dmg_icon_url : Option String
  release : String
  deriving Repr, DecidableEq

structure Env where
  /-- outcome of `parse_args()` (argument parsing and the input-file
  existence checks are out-of-scope collaborators; only the outcome
  matters to the pipeline). -/
  parseResult : Except PyErr Args
  /-- `secrets.token_urlsafe()`. -/
  keychainPassword : String
  /-- `RUNNER_TEMP`. -/
  runnerTemp : Option String
  /-- working directory used by `Path.resolve()` for the non-CI keychain
  path. -/
  cwd : String
  /-- `MACOS_NOTARIZE_APP_PASSWORD`. -/
  notarizePassword : Option String
  /-- `MACOS_CERTIFICATE`. -/
  macosCertificate : Option String
  /-- `MACOS_CERTIFICATE_PASSPHRASE`. -/
  macosCertificatePassphrase : Option String
  /-- whether `base64.b64decode(s, validate=True)` succeeds. -/
  b64Ok : String → Bool
  /-- `validators.url(url, public=True)`. -/
  urlValidPublic : String → Bool
  /-- whether the `urlopen` fetch + copy of the icon succeeds. -/
  urlFetchOk : Bool
  /-- name of the `TemporaryDirectory`. -/
  tempDir : String
  /-- `int()` of the major component of `sw_vers -productVersion` stdout
  (numeric parsing of tool stdout is abstracted by the environment). -/
  swVersMajor : Nat
  /-- `int()` of the first field of `du` stdout: the measured block count. -/
  duBlocks : Nat
  /-- whether `json.load` succeeds on the fetched notarization log. -/
  logJsonOk : Bool

/-! ### Constants from the source -/

def MACOS_MONTEREY_MAJOR_VERSION : Nat := 12

/-- The transient-failure signature matched in `run_notarytool`. -/
def http500sig : String := "Error: HTTP status code: 500. Internal Server Error"

def notarytool_credentials_profile : String := "artichoke-apple-codesign-notarize"

def codesigning_identity : String := "Developer ID Application: Ryan Lopopolo (VDKP67932G)"

def notarization_apple_id : String := "apple-codesign@artichokeruby.org"

def notarization_team_id : String := "VDKP67932G"

def disk_image_volume_name : String := "Artichoke Ruby nightly"

def disk_image_mount_path : String := "/Volumes/" ++ disk_image_volume_name

/-- `keychain_path()`: `$RUNNER_TEMP/notarization.keychain-db` when
`RUNNER_TEMP` is set (and truthy), else `notarization.keychain-db`
resolved against the working directory. -/
def keychain_path (env : Env) : String :=
  match truthy env.runnerTemp with
  | some t => t ++ "/notarization.keychain-db"
  | none => env.cwd ++ "/notarization.keychain-db"

/-! ### `run_notarytool` and `run_command_with_merged_output` -/

/-- One attempt of the body of `run_notarytool`: `subprocess.run` with
`check=False`, print stderr, return stdout on exit 0, classify a non-zero
exit as retryable iff stderr contains the HTTP 500 signature. -/
def run_notarytool_attempt (cmd : List String) : Step String := fun tools k =>
  let proc := tools k
  if proc.returncode = 0 then (.ok proc.stdout, k + 1, [.run cmd])
  else if strContains proc.stderr http500sig then
    (.error (.notaryToolInternalServerError proc.stderr), k + 1, [.run cmd])
  else (.error (.notaryToolError proc.stderr), k + 1, [.run cmd])

/-- `run_notarytool`, including its `@stamina.retry(on=
NotaryToolInternalServerError, attempts=3)` decorator and the command
prefix guard.  The `ValueError` is raised before any subprocess runs and
is not a retryable class, so it surfaces at once. -/
def run_notarytool (cmd : List String) : Step String := fun tools k =>
  if cmd.take 2 = ["/usr/bin/xcrun", "notarytool"] then
    retryLoop isInternalServerError (run_notarytool_attempt cmd) 2 tools k
  else
    (.error (.valueError "run_notarytool requires xcrun notarytool command"), k, [])

/-- One attempt of the body of `run_command_with_merged_output`:
`subprocess.run` with `check=True` and merged output, then print the
lines. -/
def run_command_attempt (cmd : List String) : Step Unit :=
  bindS (runSubChecked cmd) fun _ => pureS ()

/-- `run_command_with_merged_output`, including its `@stamina.retry(on=
subprocess.CalledProcessError, attempts=3)` decorator. -/
def run_command_with_merged_output (cmd : List String) : Step Unit :=
  retryLoop isCalledProcessError (run_command_attempt cmd) 2

/-! ### Keychain lifecycle -/

def securityDeleteKeychainCmd (env : Env) : List String :=
  ["/usr/bin/security", "delete-keychain", keychain_path env]

/-- `delete_keychain`: runs `security delete-keychain` with `check=False`.
Both returncode branches only print (success message, or "Keychain not
found ..., ignoring"), so the function never raises. -/
def delete_keychain (env : Env) : Step Unit := fun tools k =>
  let _proc := tools k
  (.ok (), k + 1, [.run (securityDeleteKeychainCmd env)])

/-- The keychain search path `create_keychain` installs: the lines of the
`list-keychains` stdout, each stripped of whitespace and surrounding
quotes, the empty entries dropped, with the build keychain appended. -/
def keychain_search_path (env : Env) (stdout : String) : List String :=
  (((pySplitLines stdout).map fun line => pyStripQuotes (pyStrip line)).filter
    fun keychain => keychain ≠ "") ++ [keychain_path env]

/-- `create_keychain`. -/
def create_keychain (env : Env) (keychain_password : String) : Step Unit :=
  bindS (delete_keychain env) fun _ =>
  bindS (run_command_with_merged_output
    ["security", "create-keychain", "-p", keychain_password, keychain_path env]) fun _ =>
  bindS (run_command_with_merged_output
    ["security", "set-keychain-settings", "-lut", "900", keychain_path env]) fun _ =>
  bindS (run_command_with_merged_output
    ["security", "unlock-keychain", "-p", keychain_password, keychain_path env]) fun _ =>
  bindS (runSubChecked ["/usr/bin/security", "list-keychains", "-d", "user"]) fun proc =>
  run_command_with_merged_output
    (["/usr/bin/security", "list-keychains", "-d", "user", "-s"] ++
      keychain_search_path env proc.stdout)

def storeCredentialsCmd (env : Env) (pw : String) : List String :=
  ["/usr/bin/xcrun", "notarytool", "store-credentials",
   notarytool_credentials_profile,
   "--apple-id", notarization_apple_id,
   "--password", pw,
   "--team-id", notarization_team_id,
   "--keychain", keychain_path env]

/-- `import_notarization_credentials`.  The command list is built before
the call, so `notarization_app_specific_password()` raises
`MissingNotarizePasswordError` before any subprocess is invoked when the
environment variable is unset or empty. -/
def import_notarization_credentials (env : Env) : Step Unit :=
  match truthy env.notarizePassword with
  | none => failS .missingNotarizePassword
  | some pw =>
    bindS (run_notarytool (storeCredentialsCmd env pw)) fun _output =>
    pureS ()

/-- `import_certificate`. -/
def import_certificate (env : Env) (path : String) (password : Option String) : Step Unit :=
  let cmd :=
    ["security", "import", path, "-k", keychain_path env, "-T", "/usr/bin/codesign"] ++
      (match password with
       | some p => ["-P", p]
       | none => [])
  bindS (run_command_with_merged_output cmd) fun _ => pureS ()

/-- `import_codesigning_certificate`: missing or empty `MACOS_CERTIFICATE`
and a failing base64 decode both raise
`MissingCodeSigningCertificateError`; a missing passphrase raises its own
named error; then the decoded certificate is written to a temp file and
imported, followed by the chain certificates and a `find-identity`
listing. -/
def import_codesigning_certificate (env : Env) : Step Unit :=
  match truthy env.macosCertificate with
  | none => failS .missingCodeSigningCertificate
  | some encoded_certificate =>
    if ¬ env.b64Ok encoded_certificate then failS .missingCodeSigningCertificate
    else
      match truthy env.macosCertificatePassphrase with
      | none => failS .missingCodeSigningCertificatePassphrase
      | some certificate_password =>
        bindS (fun _ k => (.ok (), k, [.fs "write" (env.tempDir ++ "/certificate.p12")])) fun _ =>
        bindS (import_certificate env (env.tempDir ++ "/certificate.p12")
          (some certificate_password)) fun _ =>
        bindS (import_certificate env
          "apple-certs/artichoke-provisioning-profile-signing.cer" none) fun _ =>
        bindS (import_certificate env "apple-certs/DeveloperIDG2CA.cer" none) fun _ =>
        run_command_with_merged_output
          ["security", "find-identity", "-p", "codesigning", keychain_path env]

/-- `setup_codesigning_and_notarization_keychain`. -/
def setup_codesigning_and_notarization_keychain (env : Env) (keychain_password : String) :
    Step Unit :=
  bindS (create_keychain env keychain_password) fun _ =>
  bindS (import_notarization_credentials env) fun _ =>
  bindS (import_codesigning_certificate env) fun _ =>
  run_command_with_merged_output
    ["security", "set-key-partition-list", "-S", "apple-tool:,apple:,codesign:",
     "-s", "-k", keychain_password, keychain_path env]

/-! ### Codesigning -/

def codesignCmd (env : Env) (binary_path : String) : List String :=
  ["/usr/bin/codesign", "--keychain", keychain_path env, "--sign", codesigning_identity,
   "--options=runtime", "--strict=all", "--timestamp", "-vvv", "--force", binary_path]

/-- `codesign_binary`: one call to `run_command_with_merged_output` with
the fixed codesign argument vector. -/
def codesign_binary (env : Env) (binary_path : String) : Step Unit :=
  run_command_with_merged_output (codesignCmd env binary_path)

/-! ### Disk image helpers -/

def hdiutilAttachCmd (image : String) (readwrite : Bool) : List String :=
  if readwrite then
    ["/usr/bin/hdiutil", "attach", "-readwrite", "-noverify", "-noautoopen", image]
  else
    ["/usr/bin/hdiutil", "attach", image]

def hdiutilDetachCmd : List String :=
  ["/usr/bin/hdiutil", "detach", disk_image_mount_path]

/-- `attach_disk_image`: a context manager that attaches the image, yields
the mount path to `body`, and detaches in a `finally` block.  When the
attach command itself raised, the `finally` block references the unbound
local `mounted_image` and so raises `NameError` (masking the attach
error); when an exception escapes the detach command it masks the body's
exception, exactly as a Python `finally` does. -/
def attach_disk_image {α : Type} (image : String) (readwrite : Bool)
    (body : String → Step α) : Step α := fun tools k =>
  match run_command_with_merged_output (hdiutilAttachCmd image readwrite) tools k with
  | (.error _, k1, tr1) => (.error .nameError, k1, tr1)
  | (.ok _, k1, tr1) =>
    match body disk_image_mount_path tools k1 with
    | (rb, k2, tr2) =>
      match run_command_with_merged_output hdiutilDetachCmd tools k2 with
      | (rd, k3, tr3) =>
        ((match rd with
          | .error e => .error e
          | .ok _ => rb), k3, tr1 ++ tr2 ++ tr3)

/-- The pure size computation at the end of `get_image_size`:
`(size * 512 // 1000 // 1000) + 1`, converting a 512-byte-block count to
whole megabytes plus one. -/
def image_size_mb (size : Nat) : Nat :=
  size * 512 / 1000 / 1000 + 1

/-- `get_image_size`: ask `sw_vers` for the macOS version, measure the
image with `du` (block-size flag depending on the version), and convert
the measured block count with `image_size_mb`.  Both `subprocess.run`
calls use `check=True` without retry; `int()` parsing of their stdout is
abstracted by `env.swVersMajor` and `env.duBlocks`. -/
def get_image_size (env : Env) (image : String) : Step Nat :=
  bindS (runSubChecked ["/usr/bin/sw_vers", "-productVersion"]) fun _proc =>
  if env.swVersMajor ≥ MACOS_MONTEREY_MAJOR_VERSION then
    bindS (runSubChecked ["/usr/bin/du", "-B", "512", "-s", image]) fun _p =>
    pureS (image_size_mb env.duBlocks)
  else
    bindS (runSubChecked ["/usr/bin/du", "-s", image]) fun _p =>
    pureS (image_size_mb env.duBlocks)

/-- `setup_dmg_icon`: an invalid or non-public URL is skipped (not fatal);
a network failure of the fetch raises; on success the icon file is written
and two `SetFile` commands run. -/
def setup_dmg_icon (env : Env) (dest url : String) : Step Unit :=
  let icns := dest ++ "/.VolumeIcon.icns"
  if ¬ env.urlValidPublic url then pureS ()
  else if ¬ env.urlFetchOk then failS .urlFetchError
  else
    bindS (fun _ k => (.ok (), k, [.fs "write" icns])) fun _ =>
    bindS (run_command_with_merged_output ["/usr/bin/SetFile", "-c", "icnC", icns]) fun _ =>
    bindS (run_command_with_merged_output ["/usr/bin/SetFile", "-a", "C", dest]) fun _ =>
    pureS ()

def fsStep (op path : String) : Step Unit := fun _ k => (.ok (), k, [.fs op path])

def copyAll (dest : String) : List String → Step Unit
  | [] => pureS ()
  | f :: rest => bindS (fsStep "copy" (dest ++ "/" ++ f)) fun _ => copyAll dest rest

/-- `create_notarization_bundle`: stage the inputs, build a read/write
image, optionally set the volume icon, shrink, compress, and codesign the
resulting DMG.  Filesystem staging operations (`unlink`, `rmtree`,
`mkdir`, `shutil.copy`) are modelled as infallible trace events. -/
def create_notarization_bundle (env : Env) (release_name : String)
    (binaries resources : List String) (dmg_icon_url : Option String) : Step String :=
  let stage := "dist/" ++ release_name
  let dmg_writable := "dist/" ++ release_name ++ "-temp.dmg"
  let dmg := "dist/" ++ release_name ++ ".dmg"
  bindS (fsStep "unlink" dmg) fun _ =>
  bindS (fsStep "rmtree" stage) fun _ =>
  bindS (fsStep "mkdir" stage) fun _ =>
  bindS (copyAll stage binaries) fun _ =>
  bindS (copyAll stage resources) fun _ =>
  bindS (run_command_with_merged_output
    ["/usr/bin/hdiutil", "create", "-volname", disk_image_volume_name,
     "-srcfolder", stage, "-ov", "-format", "UDRW", "-verbose", dmg_writable]) fun _ =>
  bindS (match dmg_icon_url with
    | some url => attach_disk_image dmg_writable true
        (fun mounted_image => setup_dmg_icon env mounted_image url)
    | none => pureS ()) fun _ =>
  bindS (get_image_size env dmg_writable) fun size =>
  bindS (run_command_with_merged_output
    ["/usr/bin/hdiutil", "resize", "-size", toString size ++ "m", dmg_writable]) fun _ =>
  bindS (run_command_with_merged_output
    ["/usr/bin/hdiutil", "convert", dmg_writable, "-format", "UDZO",
     "-imagekey", "zlib-level=9", "-o", dmg]) fun _ =>
  bindS (fsStep "unlink" dmg_writable) fun _ =>
  bindS (codesign_binary env dmg) fun _ =>
  pureS dmg

/-! ### Notarization, stapling, validation -/

/-- The submission-identifier scan of `notarize_bundle`: for each printed
line, a stripped line starting with `"id: "` overwrites the current
candidate with the rest of that line (the last matching line wins). -/
def lastIdLine (lines : List String) : Option String :=
  lines.foldl
    (fun notarization_request line =>
      let t := pyStrip line
      if pyStartsWith t "id: " then some (pyDropLeading t "id: ")
      else notarization_request)
    none

def notarytoolSubmitCmd (env : Env) (bundle : String) : List String :=
  ["/usr/bin/xcrun", "notarytool", "submit", bundle,
   "--keychain-profile", notarytool_credentials_profile,
   "--keychain", keychain_path env, "--wait"]

def notarytoolLogCmd (env : Env) (request : String) : List String :=
  ["/usr/bin/xcrun", "notarytool", "log", request,
   "--keychain-profile", notarytool_credentials_profile,
   "--keychain", keychain_path env,
   env.tempDir ++ "/notarization_logs.json"]

/-- `notarize_bundle`: submit and wait, scan the output for the submission
identifier, raise `NotaryToolError` when none was found despite success,
then fetch the audit log into a temp file and `json.load` it.  The log
fetch and parse are NOT guarded: any exception there propagates out of
`notarize_bundle`. -/
def notarize_bundle (env : Env) (bundle : String) : Step Unit :=
  bindS (run_notarytool (notarytoolSubmitCmd env bundle)) fun output =>
  match truthy (lastIdLine (pySplitLines output)) with
  | none => failS (.notaryToolError "Notarization request did not return an id on success")
  | some notarization_request =>
    bindS (run_notarytool (notarytoolLogCmd env notarization_request)) fun _output =>
    if env.logJsonOk then pureS () else failS .jsonError

/-- `staple_bundle`. -/
def staple_bundle (bundle : String) : Step Unit :=
  run_command_with_merged_output ["/usr/bin/xcrun", "stapler", "staple", "-v", bundle]

def verifyAll (mounted_image : String) : List String → Step Unit
  | [] => pureS ()
  | binary :: rest =>
    bindS (run_command_with_merged_output
      ["/usr/bin/codesign", "--verify", "--check-notarization", "--deep",
       "--strict=all", "-vvv", mounted_image ++ "/" ++ binary]) fun _ =>
    bindS (run_command_with_merged_output
      ["/usr/bin/codesign", "--display", "--check-notarization", "-vvv",
       mounted_image ++ "/" ++ binary]) fun _ =>
    verifyAll mounted_image rest

/-- `validate`: verify the staple and the gatekeeper assessment of the
image, then mount it and verify + display each named binary's signature. -/
def validate (bundle : String) (binary_names : List String) : Step Unit :=
  bindS (run_command_with_merged_output
    ["/usr/bin/xcrun", "stapler", "validate", "-v", bundle]) fun _ =>
  bindS (run_command_with_merged_output
    ["/usr/sbin/spctl", "-a", "-t", "open", "--context", "context:primary-signature",
     bundle, "-v"]) fun _ =>
  attach_disk_image bundle false fun mounted_image => verifyAll mounted_image binary_names

/-! ### The pipeline (`main`) -/

/-- Python `Path(p).name`: the final path component. -/
def pathName (p : String) : String :=
  ((p.splitOn "/").getLastD p)

def signAll (env : Env) : List String → Step Unit
  | [] => pureS ()
  | binary :: rest => bindS (codesign_binary env binary) fun _ => signAll env rest

/-- The body of `main`'s `try` block.  `emit_metadata` and `set_output`
only print / append to `GITHUB_OUTPUT` and are not modelled. -/
def mainBody (env : Env) : Step Unit :=
  bindS (fun _ k => (env.parseResult, k, [])) fun args =>
  bindS (setup_codesigning_and_notarization_keychain env env.keychainPassword) fun _ =>
  bindS (signAll env args.binaries) fun _ =>
  bindS (create_notarization_bundle env args.release args.binaries args.resources
    args.dmg_icon_url) fun bundle =>
  bindS (notarize_bundle env bundle) fun _ =>
  bindS (staple_bundle bundle) fun _ =>
  bindS (validate bundle (args.binaries.map pathName)) fun _ =>
  pureS ()

/-- The exception-to-exit-code mapping of `main`'s `except` clauses:
`CalledProcessError` yields the underlying tool's exit code, every other
exception yields 1, and the `else` branch yields 0. -/
def exitCodeOf : Except PyErr Unit → Int
  | .ok _ => 0
  | .error (.calledProcessError _ returncode _) => returncode
  | .error _ => 1

/-- `main`: the `try`/`except`/`else` pipeline with the `finally` block
that purges the keychain; the exit code is paired with the run trace. -/
def main (env : Env) : Tools → Nat → Int × List Event := fun tools k =>
  match mainBody env tools k with
  | (r, k1, tr) =>
    match delete_keychain env tools k1 with
    | (_, _k2, trd) => (exitCodeOf r, tr ++ trd)

/-! ### General lemmas about the retry loop and traces -/

lemma countRuns_append (a b : List Event) : countRuns (a ++ b) = countRuns a + countRuns b := by
  simp [countRuns, List.filter_append]

lemma countRuns_sleep_cons (a : List Event) : countRuns (Event.sleep :: a) = countRuns a := by
  simp [countRuns, Event.isRun]

lemma retryLoop_first_ok {α : Type} {r : PyErr → Bool} {f : Step α} {tools : Tools}
    {k : Nat} {a : α} {k1 : Nat} {tr : List Event} (n : Nat)
    (h : f tools k = (.ok a, k1, tr)) :
    retryLoop r f n tools k = (.ok a, k1, tr) := by
  cases n with
  | zero => simpa [retryLoop] using h
  | succ m => simp [retryLoop, h]

lemma retryLoop_first_fatal {α : Type} {r : PyErr → Bool} {f : Step α} {tools : Tools}
    {k : Nat} {e : PyErr} {k1 : Nat} {tr : List Event} (n : Nat)
    (h : f tools k = (.error e, k1, tr)) (hr : r e = false) :
    retryLoop r f n tools k = (.error e, k1, tr) := by
  cases n with
  | zero => simpa [retryLoop] using h
  | succ m => simp [retryLoop, h, hr]

lemma retryLoop_retry_step {α : Type} {r : PyErr → Bool} {f : Step α} {tools : Tools}
    {k : Nat} {e : PyErr} {k1 : Nat} {tr : List Event} (n : Nat)
    (h : f tools k = (.error e, k1, tr)) (hr : r e = true) :
    retryLoop r f (n + 1) tools k =
      ((retryLoop r f n tools k1).1, (retryLoop r f n tools k1).2.1,
        tr ++ Event.sleep :: (retryLoop r f n tools k1).2.2) := by
  simp [retryLoop, h, hr]

lemma countRuns_retryLoop_le {α : Type} (r : PyErr → Bool) (f : Step α)
    (hf : ∀ tools k, countRuns (f tools k).2.2 = 1) :
    ∀ (n : Nat) (tools : Tools) (k : Nat),
      countRuns ((retryLoop r f n) tools k).2.2 ≤ n + 1 := by
  intro n
  induction n with
  | zero => intro tools k; simpa [retryLoop] using (hf tools k).le
  | succ m ih =>
    intro tools k
    rcases h : f tools k with ⟨res, k1, tr⟩
    have htr : countRuns tr = 1 := by simpa [h] using hf tools k
    cases res with
    | ok a => simp [retryLoop_first_ok (m + 1) h, htr]
    | error e =>
      by_cases hr : r e = true
      · rw [retryLoop_retry_step m h hr]
        simp only [countRuns_append, countRuns_sleep_cons, htr]
        have := ih tools k1
        omega
      · rw [retryLoop_first_fatal (m + 1) h (by simpa using hr)]
        simp [htr]

lemma countRuns_retryLoop_ge_one {α : Type} (r : PyErr → Bool) (f : Step α)
    (hf : ∀ tools k, countRuns (f tools k).2.2 = 1) :
    ∀ (n : Nat) (tools : Tools) (k : Nat),
      1 ≤ countRuns ((retryLoop r f n) tools k).2.2 := by
  intro n
  induction n with
  | zero => intro tools k; simpa [retryLoop] using (hf tools k).ge
  | succ m ih =>
    intro tools k
    rcases h : f tools k with ⟨res, k1, tr⟩
    have htr : countRuns tr = 1 := by simpa [h] using hf tools k
    cases res with
    | ok a => simp [retryLoop_first_ok (m + 1) h, htr]
    | error e =>
      by_cases hr : r e = true
      · rw [retryLoop_retry_step m h hr]
        simp [countRuns_append, countRuns_sleep_cons, htr]
      · rw [retryLoop_first_fatal (m + 1) h (by simpa using hr)]
        simp [htr]

/-! ### Behaviour of the two subprocess wrappers -/

lemma runSubChecked_ok {cmd : List String} {tools : Tools} {k : Nat}
    (h : (tools k).returncode = 0) :
    runSubChecked cmd tools k = (.ok (tools k), k + 1, [.run cmd]) := by
  simp [runSubChecked, h]

lemma runSubChecked_fail {cmd : List String} {tools : Tools} {k : Nat}
    (h : (tools k).returncode ≠ 0) :
    runSubChecked cmd tools k =
      (.error (.calledProcessError cmd (tools k).returncode (tools k).stdout),
        k + 1, [.run cmd]) := by
  simp [runSubChecked, h]

lemma run_command_attempt_ok {cmd : List String} {tools : Tools} {k : Nat}
    (h : (tools k).returncode = 0) :
    run_command_attempt cmd tools k = (.ok (), k + 1, [.run cmd]) := by
  simp [run_command_attempt, bindS, runSubChecked_ok h, pureS]

lemma run_command_attempt_fail {cmd : List String} {tools : Tools} {k : Nat}
    (h : (tools k).returncode ≠ 0) :
    run_command_attempt cmd tools k =
      (.error (.calledProcessError cmd (tools k).returncode (tools k).stdout),
        k + 1, [.run cmd]) := by
  simp [run_command_attempt, bindS, runSubChecked_fail h]

lemma run_command_ok {cmd : List String} {tools : Tools} {k : Nat}
    (h : (tools k).returncode = 0) :
    run_command_with_merged_output cmd tools k = (.ok (), k + 1, [.run cmd]) :=
  retryLoop_first_ok 2 (run_command_attempt_ok h)

lemma run_command_all_fail {cmd : List String} {tools : Tools} {k : Nat}
    (h0 : (tools k).returncode ≠ 0) (h1 : (tools (k + 1)).returncode ≠ 0)
    (h2 : (tools (k + 2)).returncode ≠ 0) :
    run_command_with_merged_output cmd tools k =
      (.error (.calledProcessError cmd (tools (k + 2)).returncode (tools (k + 2)).stdout),
        k + 3, [.run cmd, .sleep, .run cmd, .sleep, .run cmd]) := by
  unfold run_command_with_merged_output
  rw [retryLoop_retry_step 1 (run_command_attempt_fail h0) rfl]
  rw [retryLoop_retry_step 0 (run_command_attempt_fail h1) rfl]
  have h2' := @run_command_attempt_fail cmd tools (k + 2) h2
  simp [retryLoop, h2']

lemma run_notarytool_attempt_ok {cmd : List String} {tools : Tools} {k : Nat}
    (h : (tools k).returncode = 0) :
    run_notarytool_attempt cmd tools k = (.ok (tools k).stdout, k + 1, [.run cmd]) := by
  simp [run_notarytool_attempt, h]

lemma run_notarytool_attempt_transient {cmd : List String} {tools : Tools} {k : Nat}
    (h : (tools k).returncode ≠ 0) (h5 : strContains (tools k).stderr http500sig = true) :
    run_notarytool_attempt cmd tools k =
      (.error (.notaryToolInternalServerError (tools k).stderr), k + 1, [.run cmd]) := by
  simp [run_notarytool_attempt, h, h5]

lemma run_notarytool_attempt_fatal {cmd : List String} {tools : Tools} {k : Nat}
    (h : (tools k).returncode ≠ 0) (h5 : strContains (tools k).stderr http500sig = false) :
    run_notarytool_attempt cmd tools k =
      (.error (.notaryToolError (tools k).stderr), k + 1, [.run cmd]) := by
  simp [run_notarytool_attempt, h, h5]

def notarytoolCmdHead : List String := ["/usr/bin/xcrun", "notarytool"]

lemma run_notarytool_eq_retryLoop {cmd : List String} (hp : cmd.take 2 = notarytoolCmdHead) :
    run_notarytool cmd =
      retryLoop isInternalServerError (run_notarytool_attempt cmd) 2 := by
  funext tools k
  simp [run_notarytool, hp, notarytoolCmdHead]

lemma run_notarytool_ok {cmd : List String} {tools : Tools} {k : Nat}
    (hp : cmd.take 2 = notarytoolCmdHead) (h : (tools k).returncode = 0) :
    run_notarytool cmd tools k = (.ok (tools k).stdout, k + 1, [.run cmd]) := by
  rw [run_notarytool_eq_retryLoop hp]
  exact retryLoop_first_ok 2 (run_notarytool_attempt_ok h)

lemma run_notarytool_fatal {cmd : List String} {tools : Tools} {k : Nat}
    (hp : cmd.take 2 = notarytoolCmdHead) (h : (tools k).returncode ≠ 0)
    (h5 : strContains (tools k).stderr http500sig = false) :
    run_notarytool cmd tools k =
      (.error (.notaryToolError (tools k).stderr), k + 1, [.run cmd]) := by
  rw [run_notarytool_eq_retryLoop hp]
  exact retryLoop_first_fatal 2 (run_notarytool_attempt_fatal h h5) rfl

lemma run_notarytool_all_transient {cmd : List String} {tools : Tools} {k : Nat}
    (hp : cmd.take 2 = notarytoolCmdHead)
    (h0 : (tools k).returncode ≠ 0) (h05 : strContains (tools k).stderr http500sig = true)
    (h1 : (tools (k + 1)).returncode ≠ 0)
    (h15 : strContains (tools (k + 1)).stderr http500sig = true)
    (h2 : (tools (k + 2)).returncode ≠ 0)
    (h25 : strContains (tools (k + 2)).stderr http500sig = true) :
    run_notarytool cmd tools k =
      (.error (.notaryToolInternalServerError (tools (k + 2)).stderr),
        k + 3, [.run cmd, .sleep, .run cmd, .sleep, .run cmd]) := by
  rw [run_notarytool_eq_retryLoop hp]
  rw [retryLoop_retry_step 1 (run_notarytool_attempt_transient h0 h05) rfl]
  rw [retryLoop_retry_step 0 (run_notarytool_attempt_transient h1 h15) rfl]
  have h2' := @run_notarytool_attempt_transient cmd tools (k + 2) h2 h25
  simp [retryLoop, h2']

lemma run_notarytool_transient_then_ok {cmd : List String} {tools : Tools} {k : Nat}
    (hp : cmd.take 2 = notarytoolCmdHead)
    (h0 : (tools k).returncode ≠ 0) (h05 : strContains (tools k).stderr http500sig = true)
    (h1 : (tools (k + 1)).returncode = 0) :
    run_notarytool cmd tools k =
      (.ok (tools (k + 1)).stdout, k + 2, [.run cmd, .sleep, .run cmd]) := by
  rw [run_notarytool_eq_retryLoop hp]
  rw [retryLoop_retry_step 1 (run_notarytool_attempt_transient h0 h05) rfl]
  rw [retryLoop_first_ok 1 (run_notarytool_attempt_ok h1)]
  rfl

lemma run_notarytool_attempt_trace (cmd : List String) (tools : Tools) (k : Nat) :
    countRuns (run_notarytool_attempt cmd tools k).2.2 = 1 := by
  unfold run_notarytool_attempt
  by_cases h : (tools k).returncode = 0
  · simp [h, countRuns, Event.isRun]
  · by_cases h5 : strContains (tools k).stderr http500sig <;>
      simp [h, h5, countRuns, Event.isRun]

lemma run_command_attempt_trace (cmd : List String) (tools : Tools) (k : Nat) :
    countRuns (run_command_attempt cmd tools k).2.2 = 1 := by
  by_cases h : (tools k).returncode = 0
  · simp [run_command_attempt_ok h, countRuns, Event.isRun]
  · simp [run_command_attempt_fail h, countRuns, Event.isRun]

lemma run_notarytool_transient2_then_ok {cmd : List String} {tools : Tools} {k : Nat}
    (hp : cmd.take 2 = notarytoolCmdHead)
    (h0 : (tools k).returncode ≠ 0) (h05 : strContains (tools k).stderr http500sig = true)
    (h1 : (tools (k + 1)).returncode ≠ 0)
    (h15 : strContains (tools (k + 1)).stderr http500sig = true)
    (h2 : (tools (k + 2)).returncode = 0) :
    run_notarytool cmd tools k =
      (.ok (tools (k + 2)).stdout, k + 3, [.run cmd, .sleep, .run cmd, .sleep, .run cmd]) := by
  rw [run_notarytool_eq_retryLoop hp]
  rw [retryLoop_retry_step 1 (run_notarytool_attempt_transient h0 h05) rfl]
  rw [retryLoop_retry_step 0 (run_notarytool_attempt_transient h1 h15) rfl]
  rw [retryLoop_first_ok 0 (run_notarytool_attempt_ok h2)]
  rfl

/-! ### Concrete fixtures -/

def args0 : Args :=
  { resources := ["README.md"], binaries := ["target/appbin"],
    dmg_icon_url := none, release := "nightly" }

def env0 : Env :=
  { parseResult := .ok args0
    keychainPassword := "kcpw"
    runnerTemp := some "/tmp/runner"
    cwd := "/work"
    notarizePassword := some "npw"
    macosCertificate := some "Y2VydA=="
    macosCertificatePassphrase := some "cpw"
    b64Ok := fun _ => true
    urlValidPublic := fun _ => true
    urlFetchOk := true
    tempDir := "/tmp/td"
    swVersMajor := 13
    duBlocks := 9000
    logJsonOk := true }

def okProc : ProcResult := { returncode := 0, stdout := "", stderr := "" }

/-! ### Claim C1: retry policy of `run_notarytool` -/

/-- C1: for every invocation of `run_notarytool` (with the required
`/usr/bin/xcrun notarytool` command prefix): at most 3 tool invocations
ever happen; an attempt that exits 0 ends the loop at once with that
attempt's stdout; three consecutive transient failures (non-zero exit with
the HTTP 500 signature on stderr) surface the last transient error as the
fatal result after exactly 3 invocations; a transient failure is retried
(with a backoff sleep) and a later exit 0 returns that attempt's stdout;
and a non-zero exit without the 500 signature is fatal after a single
invocation. -/
theorem run_notarytool_retry_policy (cmd : List String) (tools : Tools) (k : Nat)
    (hp : cmd.take 2 = notarytoolCmdHead) :
    countRuns (run_notarytool cmd tools k).2.2 ≤ 3 ∧
    ((tools k).returncode = 0 →
      run_notarytool cmd tools k = (.ok (tools k).stdout, k + 1, [.run cmd])) ∧
    ((∀ i < 3, (tools (k + i)).returncode ≠ 0 ∧
        strContains (tools (k + i)).stderr http500sig = true) →
      run_notarytool cmd tools k =
        (.error (.notaryToolInternalServerError (tools (k + 2)).stderr),
          k + 3, [.run cmd, .sleep, .run cmd, .sleep, .run cmd])) ∧
    ((∀ i < 2, (tools (k + i)).returncode ≠ 0 ∧
        strContains (tools (k + i)).stderr http500sig = true) →
      (tools (k + 2)).returncode = 0 →
      run_notarytool cmd tools k =
        (.ok (tools (k + 2)).stdout, k + 3, [.run cmd, .sleep, .run cmd, .sleep, .run cmd])) ∧
    ((tools k).returncode ≠ 0 → strContains (tools k).stderr http500sig = false →
      run_notarytool cmd tools k =
        (.error (.notaryToolError (tools k).stderr), k + 1, [.run cmd])) := by
  refine ⟨?_, ?_, ?_, ?_, ?_⟩
  · rw [run_notarytool_eq_retryLoop hp]
    exact countRuns_retryLoop_le _ _ (run_notarytool_attempt_trace cmd) 2 tools k
  · intro h; exact run_notarytool_ok hp h
  · intro h
    exact run_notarytool_all_transient hp (h 0 (by omega)).1 (h 0 (by omega)).2
      (h 1 (by omega)).1 (h 1 (by omega)).2 (h 2 (by omega)).1 (h 2 (by omega)).2
  · intro h h2
    exact run_notarytool_transient2_then_ok hp (h 0 (by omega)).1 (h 0 (by omega)).2
      (h 1 (by omega)).1 (h 1 (by omega)).2 h2
  · intro h h5; exact run_notarytool_fatal hp h h5

def ise500Proc : ProcResult :=
  { returncode := 1, stdout := "",
    stderr := "Error: HTTP status code: 500. Internal Server Error" }

/-- Oracle for the spec's retry scenario: the 500 signature on attempts
1 and 2, success on attempt 3. -/
def c1Tools : Tools := fun i =>
  if i ≤ 1 then ise500Proc
  else { returncode := 0, stdout := "submission accepted", stderr := "" }

theorem run_notarytool_retry_policy_witness :
    run_notarytool (notarytoolSubmitCmd env0 "dist/nightly.dmg") c1Tools 0 =
      (.ok "submission accepted", 3,
        [.run (notarytoolSubmitCmd env0 "dist/nightly.dmg"), .sleep,
         .run (notarytoolSubmitCmd env0 "dist/nightly.dmg"), .sleep,
         .run (notarytoolSubmitCmd env0 "dist/nightly.dmg")]) :=
  ((run_notarytool_retry_policy (notarytoolSubmitCmd env0 "dist/nightly.dmg") c1Tools 0
    (by decide)).2.2.2.1 (by decide) (by decide))

/-! ### Claim C3: `codesign_binary` failure handling -/

/-- Oracle on which the signing tool fails once and then succeeds. -/
def c3Tools : Tools := fun i =>
  if i = 0 then { returncode := 1, stdout := "signing failed", stderr := "" }
  else okProc

/-- C3 counterexample: the claim says "exactly one invocation of the
signing tool occurs per sign call, whether it succeeds or fails".  On an
oracle whose first attempt exits 1, `codesign_binary` (via the
`stamina.retry(on=subprocess.CalledProcessError, attempts=3)` decorator of
`run_command_with_merged_output`) invokes the tool a second time after a
backoff sleep, and the sign call succeeds: two invocations, not one, and
the non-zero exit was not fatal. -/
theorem codesign_single_invocation_cex :
    (c3Tools 0).returncode ≠ 0 ∧
    codesign_binary env0 "target/appbin" c3Tools 0 =
      (.ok (), 2, [.run (codesignCmd env0 "target/appbin"), .sleep,
                   .run (codesignCmd env0 "target/appbin")]) ∧
    countRuns (codesign_binary env0 "target/appbin" c3Tools 0).2.2 = 2 := by
  refine ⟨by decide, ?_, ?_⟩ <;> decide

/-- C3 amended: each `codesign_binary` call invokes the signing tool
between 1 and 3 times.  A first attempt that exits 0 is the only
invocation; three consecutive non-zero exits are fatal for the artifact,
surfacing the last attempt's `CalledProcessError` (exit code and captured
output) after exactly 3 invocations with backoff sleeps between
attempts. -/
theorem codesign_retry_bound (env : Env) (binary_path : String) (tools : Tools) (k : Nat) :
    1 ≤ countRuns (codesign_binary env binary_path tools k).2.2 ∧
    countRuns (codesign_binary env binary_path tools k).2.2 ≤ 3 ∧
    ((tools k).returncode = 0 →
      codesign_binary env binary_path tools k =
        (.ok (), k + 1, [.run (codesignCmd env binary_path)])) ∧
    ((∀ i < 3, (tools (k + i)).returncode ≠ 0) →
      codesign_binary env binary_path tools k =
        (.error (.calledProcessError (codesignCmd env binary_path)
            (tools (k + 2)).returncode (tools (k + 2)).stdout),
          k + 3, [.run (codesignCmd env binary_path), .sleep,
                  .run (codesignCmd env binary_path), .sleep,
                  .run (codesignCmd env binary_path)])) := by
  refine ⟨?_, ?_, ?_, ?_⟩
  · exact countRuns_retryLoop_ge_one _ _ (run_command_attempt_trace _) 2 tools k
  · exact countRuns_retryLoop_le _ _ (run_command_attempt_trace _) 2 tools k
  · intro h; exact run_command_ok h
  · intro h
    exact run_command_all_fail (h 0 (by omega)) (h 1 (by omega)) (h 2 (by omega))

/-- Oracle on which the signing tool fails on all attempts. -/
def c3FailTools : Tools := fun _ =>
  { returncode := 7, stdout := "bad identity", stderr := "" }

theorem codesign_retry_bound_witness :
    codesign_binary env0 "target/appbin" c3FailTools 0 =
      (.error (.calledProcessError (codesignCmd env0 "target/appbin") 7 "bad identity"),
        3, [.run (codesignCmd env0 "target/appbin"), .sleep,
            .run (codesignCmd env0 "target/appbin"), .sleep,
            .run (codesignCmd env0 "target/appbin")]) :=
  ((codesign_retry_bound env0 "target/appbin" c3FailTools 0).2.2.2 (by decide))

/-! ### Claim C7: size computation of `get_image_size` -/

lemma image_size_mb_mono {s1 s2 : Nat} (h : s1 ≤ s2) :
    image_size_mb s1 ≤ image_size_mb s2 := by
  unfold image_size_mb
  exact Nat.add_le_add_right
    (Nat.div_le_div_right (Nat.div_le_div_right (Nat.mul_le_mul_right 512 h))) 1

/-- C7: the computed disk-image size converts a 512-byte-block count into
megabytes (floor of `size * 512 / 1000 / 1000`) plus one unit, and is
monotone in the measured block count; in particular doubling the block
count never decreases it. -/
theorem image_size_formula_and_monotone (s1 s2 : Nat) (h : s1 ≤ s2) :
    image_size_mb s1 = s1 * 512 / 1000 / 1000 + 1 ∧
    image_size_mb s1 ≤ image_size_mb s2 ∧
    image_size_mb s1 ≤ image_size_mb (2 * s1) :=
  ⟨rfl, image_size_mb_mono h, image_size_mb_mono (by omega)⟩

theorem image_size_formula_and_monotone_witness :
    image_size_mb 9000 = 9000 * 512 / 1000 / 1000 + 1 ∧
    image_size_mb 9000 ≤ image_size_mb 18000 ∧
    image_size_mb 9000 ≤ image_size_mb (2 * 9000) :=
  image_size_formula_and_monotone 9000 18000 (by omega)

/-! ### Claim C9: `delete_keychain` never raises -/

/-- C9: `delete_keychain` runs the delete tool with `check=False` exactly
once and returns normally for every possible tool outcome (both the
"keychain deleted" and the "keychain not found / other non-zero exit"
branches only print), so the teardown is callable unconditionally from a
cleanup path. -/
theorem delete_keychain_never_raises (env : Env) (tools : Tools) (k : Nat) :
    (delete_keychain env tools k).1 = .ok () ∧
    (delete_keychain env tools k).2.1 = k + 1 ∧
    (delete_keychain env tools k).2.2 = [.run (securityDeleteKeychainCmd env)] :=
  ⟨rfl, rfl, rfl⟩

/-! ### Trace-shape lemmas -/

lemma bindS_error_eq {α β : Type} {x : Step α} {f : α → Step β} {tools : Tools}
    {k k1 : Nat} {e : PyErr} {tr : List Event} (h : x tools k = (.error e, k1, tr)) :
    bindS x f tools k = (.error e, k1, tr) := by
  simp [bindS, h]

lemma bindS_ok_eq {α β : Type} {x : Step α} {f : α → Step β} {tools : Tools}
    {k k1 : Nat} {a : α} {tr : List Event} (h : x tools k = (.ok a, k1, tr)) :
    bindS x f tools k =
      ((f a tools k1).1, (f a tools k1).2.1, tr ++ (f a tools k1).2.2) := by
  rcases hf : f a tools k1 with ⟨r2, k2, tr2⟩
  simp [bindS, h, hf]

lemma run_notarytool_attempt_trace_eq (cmd : List String) (tools : Tools) (k : Nat) :
    (run_notarytool_attempt cmd tools k).2.2 = [Event.run cmd] := by
  unfold run_notarytool_attempt
  by_cases h : (tools k).returncode = 0
  · simp [h]
  · by_cases h5 : strContains (tools k).stderr http500sig <;> simp [h, h5]

lemma run_command_attempt_trace_eq (cmd : List String) (tools : Tools) (k : Nat) :
    (run_command_attempt cmd tools k).2.2 = [Event.run cmd] := by
  by_cases h : (tools k).returncode = 0
  · simp [run_command_attempt_ok h]
  · simp [run_command_attempt_fail h]

lemma retryLoop_events {α : Type} {r : PyErr → Bool} {f : Step α} {cmd : List String}
    (hf : ∀ tools k, (f tools k).2.2 = [Event.run cmd]) :
    ∀ (n : Nat) (tools : Tools) (k : Nat) (e : Event),
      e ∈ ((retryLoop r f n) tools k).2.2 → e = .run cmd ∨ e = .sleep := by
  intro n
  induction n with
  | zero =>
    intro tools k e he
    rw [show retryLoop r f 0 = f from rfl, hf] at he
    simp at he
    exact Or.inl he
  | succ m ih =>
    intro tools k e he
    rcases h : f tools k with ⟨res, k1, tr⟩
    have htr : tr = [Event.run cmd] := by
      have := hf tools k
      rw [h] at this
      exact this
    cases res with
    | ok a =>
      rw [retryLoop_first_ok (m + 1) h] at he
      rw [htr] at he
      simp at he
      exact Or.inl he
    | error er =>
      by_cases hr : r er = true
      · rw [retryLoop_retry_step m h hr] at he
        rw [htr] at he
        simp only [List.cons_append, List.nil_append, List.mem_cons] at he
        rcases he with he | he | he
        · exact Or.inl he
        · exact Or.inr he
        · exact ih tools k1 e he
      · rw [retryLoop_first_fatal (m + 1) h (by simpa using hr)] at he
        rw [htr] at he
        simp at he
        exact Or.inl he

lemma retryLoop_trace_head {α : Type} (r : PyErr → Bool) (f : Step α)
    (n : Nat) (tools : Tools) (k : Nat) :
    ∃ rest, ((retryLoop r f n) tools k).2.2 = (f tools k).2.2 ++ rest := by
  cases n with
  | zero => exact ⟨[], by simp [retryLoop]⟩
  | succ m =>
    rcases h : f tools k with ⟨res, k1, tr⟩
    cases res with
    | ok a =>
      refine ⟨[], ?_⟩
      rw [retryLoop_first_ok (m + 1) h]
      all_goals simp [h]
    | error er =>
      by_cases hr : r er = true
      · refine ⟨Event.sleep :: ((retryLoop r f m) tools k1).2.2, ?_⟩
        rw [retryLoop_retry_step m h hr]
      · refine ⟨[], ?_⟩
        rw [retryLoop_first_fatal (m + 1) h (by simpa using hr)]
        all_goals simp [h]

lemma run_command_runs_cmd (cmd : List String) (tools : Tools) (k : Nat) :
    Event.run cmd ∈ (run_command_with_merged_output cmd tools k).2.2 := by
  obtain ⟨rest, hrest⟩ :=
    retryLoop_trace_head isCalledProcessError (run_command_attempt cmd) 2 tools k
  unfold run_command_with_merged_output
  rw [hrest, run_command_attempt_trace_eq]
  simp

lemma run_notarytool_events {cmd : List String} {tools : Tools} {k : Nat} {e : Event}
    (he : e ∈ (run_notarytool cmd tools k).2.2) : e = .run cmd ∨ e = .sleep := by
  by_cases hp : cmd.take 2 = ["/usr/bin/xcrun", "notarytool"]
  · unfold run_notarytool at he
    rw [if_pos hp] at he
    exact retryLoop_events (run_notarytool_attempt_trace_eq cmd) 2 tools k e he
  · unfold run_notarytool at he
    rw [if_neg hp] at he
    simp at he

lemma truthy_some_ne_empty {o : Option String} {v : String} (h : truthy o = some v) :
    v ≠ "" := by
  cases o with
  | none => simp [truthy] at h
  | some s =>
    by_cases hs : s = ""
    · simp [truthy, hs] at h
    · simp only [truthy, if_neg hs, Option.some.injEq] at h
      rw [← h]
      exact hs

/-! ### Claim C4: the submission identifier is required and never empty -/

/-- C4: when the submission tool exits 0 but its output has no line whose
stripped form starts with `id: `, `notarize_bundle` raises the
protocol-violation `NotaryToolError`; and every `notarytool log` command
the function ever issues carries a non-empty submission identifier, so it
never proceeds with a null or empty identifier. -/
theorem notarize_submission_id_required (env : Env) (bundle : String)
    (tools : Tools) (k : Nat) :
    ((tools k).returncode = 0 →
      lastIdLine (pySplitLines (tools k).stdout) = none →
      (notarize_bundle env bundle tools k).1 =
        .error (.notaryToolError "Notarization request did not return an id on success")) ∧
    (∀ cmd, Event.run cmd ∈ (notarize_bundle env bundle tools k).2.2 →
      cmd.take 3 = ["/usr/bin/xcrun", "notarytool", "log"] →
      ∃ req, cmd.get? 3 = some req ∧ req ≠ "") := by
  constructor
  · intro h hid
    unfold notarize_bundle
    rw [bindS_ok_eq (@run_notarytool_ok (notarytoolSubmitCmd env bundle) tools k rfl h)]
    simp [hid, truthy, failS]
  · intro cmd hmem htake
    unfold notarize_bundle at hmem
    rcases hx : run_notarytool (notarytoolSubmitCmd env bundle) tools k with ⟨rx, k1, tr1⟩
    have submit_case : Event.run cmd ∈ tr1 → False := by
      intro h1
      have h2 := @run_notarytool_events (notarytoolSubmitCmd env bundle)
        tools k (Event.run cmd) (by rw [hx]; exact h1)
      rcases h2 with h2 | h2
      · cases h2
        have hsub : ((notarytoolSubmitCmd env bundle).take 3).get? 2 = some "submit" := rfl
        rw [htake] at hsub
        exact absurd hsub (by decide)
      · cases h2
    cases rx with
    | error e =>
      rw [bindS_error_eq hx] at hmem
      exact absurd hmem submit_case
    | ok output =>
      rw [bindS_ok_eq hx] at hmem
      rw [List.mem_append] at hmem
      rcases hmem with hmem | hmem
      · exact absurd hmem submit_case
      rcases htr : truthy (lastIdLine (pySplitLines output)) with _ | req
      · simp [htr, failS] at hmem
      · simp only [htr] at hmem
        rcases hy : run_notarytool (notarytoolLogCmd env req) tools k1 with ⟨ry, k2, tr2⟩
        have log_case : Event.run cmd ∈ tr2 → ∃ r, cmd.get? 3 = some r ∧ r ≠ "" := by
          intro h2
          have h3 := @run_notarytool_events (notarytoolLogCmd env req)
            tools k1 (Event.run cmd) (by rw [hy]; exact h2)
          rcases h3 with h3 | h3
          · cases h3
            exact ⟨req, rfl, truthy_some_ne_empty htr⟩
          · cases h3
        cases ry with
        | error e =>
          rw [bindS_error_eq hy] at hmem
          exact log_case hmem
        | ok out2 =>
          rw [bindS_ok_eq hy] at hmem
          have hjson : ((if env.logJsonOk then pureS () else failS PyErr.jsonError :
              Step Unit) tools k2).2.2 = [] := by
            by_cases hj : env.logJsonOk <;> simp [hj, pureS, failS]
          rw [hjson] at hmem
          simp only [List.append_nil] at hmem
          exact log_case hmem

/-- Submission succeeds but the tool prints no identifier line. -/
def c4NoIdTools : Tools := fun i =>
  if i = 0 then { returncode := 0, stdout := "Processing complete\n  status: Accepted\n",
                  stderr := "" }
  else okProc

/-- Submission succeeds with identifier `abc-123`; the log fetch succeeds. -/
def c4IdTools : Tools := fun i =>
  if i = 0 then { returncode := 0, stdout := "  id: abc-123\n  status: Accepted\n",
                  stderr := "" }
  else okProc

theorem notarize_submission_id_required_witness :
    (notarize_bundle env0 "dist/nightly.dmg" c4NoIdTools 0).1 =
      .error (.notaryToolError "Notarization request did not return an id on success") ∧
    ∃ req, (notarytoolLogCmd env0 "abc-123").get? 3 = some req ∧ req ≠ "" :=
  ⟨(notarize_submission_id_required env0 "dist/nightly.dmg" c4NoIdTools 0).1
      (by decide) (by decide),
   (notarize_submission_id_required env0 "dist/nightly.dmg" c4IdTools 0).2
      (notarytoolLogCmd env0 "abc-123") (by decide) (by decide)⟩

/-! ### Claim C5: a log-fetch failure fails `notarize_bundle` -/

/-- Oracle for the full pipeline: submission (invocation 19) succeeds
with an identifier, the log fetch (invocation 20) exits 3 without the 500
signature, everything else succeeds. -/
def c5Tools : Tools := fun i =>
  if i = 19 then ⟨0, "  id: abc-123\n  status: Accepted\n", ""⟩
  else if i = 20 then ⟨3, "", "log fetch failed"⟩
  else okProc

def mentionsStapler : Event → Bool
  | .run cmd => cmd.contains "stapler"
  | _ => false

/-- C5 counterexample: the claim says a failure to fetch the notarization
log does not fail the notarization step and stapling/validation still
execute.  On a run where the submission succeeds (identifier `abc-123`
was returned) and the log fetch exits 3, `notarize_bundle`'s unguarded
log fetch raises `NotaryToolError`, `main` exits 1, and no `stapler`
command is ever invoked. -/
theorem notarize_log_failure_cex :
    (c5Tools 19).returncode = 0 ∧
    lastIdLine (pySplitLines (c5Tools 19).stdout) = some "abc-123" ∧
    (mainBody env0 c5Tools 0).1 = .error (.notaryToolError "log fetch failed") ∧
    (main env0 c5Tools 0).1 = 1 ∧
    (mainBody env0 c5Tools 0).2.2.any mentionsStapler = false := by
  decide

/-- C5 amended: when the submission succeeds and returned an identifier,
a subsequent failure of the log fetch (non-retryable non-zero exit) or of
the JSON parse of the fetched log propagates out of `notarize_bundle` as
an error, so the notarization step fails and later stages do not run. -/
theorem notarize_log_failure_propagates (env : Env) (bundle : String) (tools : Tools)
    (k : Nat) (req : String)
    (hs : (tools k).returncode = 0)
    (hid : truthy (lastIdLine (pySplitLines (tools k).stdout)) = some req) :
    ((tools (k + 1)).returncode ≠ 0 →
      strContains (tools (k + 1)).stderr http500sig = false →
      (notarize_bundle env bundle tools k).1 =
        .error (.notaryToolError (tools (k + 1)).stderr)) ∧
    ((tools (k + 1)).returncode = 0 → env.logJsonOk = false →
      (notarize_bundle env bundle tools k).1 = .error .jsonError) := by
  have hsubmit := @run_notarytool_ok (notarytoolSubmitCmd env bundle) tools k rfl hs
  constructor
  · intro hl h5
    unfold notarize_bundle
    rw [bindS_ok_eq hsubmit]
    simp only [hid]
    rw [bindS_error_eq
      (@run_notarytool_fatal (notarytoolLogCmd env req) tools (k + 1) rfl hl h5)]
  · intro hl hj
    unfold notarize_bundle
    rw [bindS_ok_eq hsubmit]
    simp only [hid]
    rw [bindS_ok_eq (@run_notarytool_ok (notarytoolLogCmd env req) tools (k + 1) rfl hl)]
    simp [hj, failS]

/-- Submission returns an identifier, the log fetch then exits 3. -/
def c5NtTools : Tools := fun i =>
  if i = 0 then ⟨0, "  id: abc-123\n  status: Accepted\n", ""⟩
  else ⟨3, "", "log fetch failed"⟩

theorem notarize_log_failure_propagates_witness :
    (notarize_bundle env0 "dist/nightly.dmg" c5NtTools 0).1 =
      .error (.notaryToolError (c5NtTools 1).stderr) :=
  (notarize_log_failure_propagates env0 "dist/nightly.dmg" c5NtTools 0 "abc-123"
    (by decide) (by decide)).1 (by decide) (by decide)

/-! ### Claim C10: `attach_disk_image` always detaches after a successful
attach -/

/-- C10: whenever the attach command of `attach_disk_image` succeeds, the
`hdiutil detach` command on the mount path is invoked on every exit of
the context — in particular for every possible body, including one that
raises. -/
theorem attach_disk_image_always_detaches {α : Type} (image : String) (readwrite : Bool)
    (body : String → Step α) (tools : Tools) (k : Nat)
    (h : (run_command_with_merged_output (hdiutilAttachCmd image readwrite) tools k).1 =
      .ok ()) :
    Event.run hdiutilDetachCmd ∈ (attach_disk_image image readwrite body tools k).2.2 := by
  rcases ha : run_command_with_merged_output (hdiutilAttachCmd image readwrite) tools k
    with ⟨ra, k1, tr1⟩
  have hra : ra = .ok () := by rw [ha] at h; exact h
  subst hra
  unfold attach_disk_image
  simp only [ha]
  rcases hb : body disk_image_mount_path tools k1 with ⟨rb, k2, tr2⟩
  rcases hd : run_command_with_merged_output hdiutilDetachCmd tools k2 with ⟨rd, k3, tr3⟩
  have hmem := run_command_runs_cmd hdiutilDetachCmd tools k2
  rw [hd] at hmem
  simp [List.mem_append, hmem]

def allOkTools : Tools := fun _ => okProc

/-- A body that raises, standing for an exception in the icon setup or the
per-binary verification. -/
def failingBody : String → Step Unit := fun _ => failS .jsonError

theorem attach_disk_image_always_detaches_witness :
    Event.run hdiutilDetachCmd ∈
      (attach_disk_image "dist/nightly.dmg" false failingBody allOkTools 0).2.2 :=
  attach_disk_image_always_detaches "dist/nightly.dmg" false failingBody allOkTools 0
    (by decide)

/-! ### Claim C2: teardown on every exit path -/

/-- C2: whatever the environment and however the tool invocations turn
out (success, or an exception raised at any stage: argument parsing,
keychain setup, signing, bundle creation, notarization, stapling, or
validation), `main`'s trace is the body's trace followed by exactly one
invocation of the keychain-delete command: the `finally` teardown
executes exactly once, at pipeline end, on every exit path. -/
theorem main_always_tears_down (env : Env) (tools : Tools) (k : Nat) :
    (main env tools k).2 =
      (mainBody env tools k).2.2 ++ [Event.run (securityDeleteKeychainCmd env)] := by
  rcases hb : mainBody env tools k with ⟨r, k1, tr⟩
  simp [main, hb, delete_keychain]

/-! ### Claim C8: exit codes of `main` -/

lemma main_fst (env : Env) (tools : Tools) (k : Nat) :
    (main env tools k).1 = exitCodeOf (mainBody env tools k).1 := by
  rcases hb : mainBody env tools k with ⟨r, k1, tr⟩
  simp [main, hb, delete_keychain]

/-- Everything succeeds; the submission (invocation 19) returns an
identifier. -/
def happyTools : Tools := fun i =>
  if i = 19 then ⟨0, "  id: abc-123\n  status: Accepted\n", ""⟩ else okProc

/-- The `notarytool store-credentials` subprocess (invocation 6) exits 2
without the 500 signature; everything else succeeds. -/
def c8Tools : Tools := fun i =>
  if i = 6 then ⟨2, "", "Error: credentials rejected"⟩ else okProc

/-- C8 counterexample: the claim says that when a stage fails because an
invoked subprocess returned non-zero, the process exits with that tool's
exit code.  Here the `notarytool store-credentials` subprocess exits 2,
but `run_notarytool` wraps the failure in `NotaryToolError` rather than
`CalledProcessError`, so `main` exits 1, not 2. -/
theorem main_exit_code_cex :
    (c8Tools 6).returncode = 2 ∧
    (mainBody env0 c8Tools 0).1 = .error (.notaryToolError "Error: credentials rejected") ∧
    countRuns (mainBody env0 c8Tools 0).2.2 = 7 ∧
    (main env0 c8Tools 0).1 = 1 ∧
    (1 : Int) ≠ 2 := by
  decide

/-- C8 amended: `main` exits 0 on full success; when the pipeline fails
with a `CalledProcessError` (a `check=True` subprocess invocation that
exited non-zero, directly or after the merged-output retries), the
process exits with that underlying tool's exit code; every other failure
— including notarytool non-zero exits, which surface as
`NotaryToolError`/`NotaryToolInternalServerError` — exits 1. -/
theorem main_exit_code_classification (env : Env) (tools : Tools) (k : Nat) :
    ((mainBody env tools k).1 = .ok () → (main env tools k).1 = 0) ∧
    (∀ c rc out, (mainBody env tools k).1 = .error (.calledProcessError c rc out) →
      (main env tools k).1 = rc) ∧
    (∀ e, (mainBody env tools k).1 = .error e → isCalledProcessError e = false →
      (main env tools k).1 = 1) := by
  refine ⟨?_, ?_, ?_⟩
  · intro h; rw [main_fst, h]; rfl
  · intro c rc out h; rw [main_fst, h]; rfl
  · intro e h hcpe
    rw [main_fst, h]
    cases e <;> first
      | rfl
      | simp [isCalledProcessError] at hcpe

theorem main_exit_code_classification_witness :
    (main env0 happyTools 0).1 = 0 :=
  (main_exit_code_classification env0 happyTools 0).1 (by decide)

/-! ### Claim C6: where the missing-certificate check fires -/

def c6Env : Env := { env0 with macosCertificate := none }

/-- C6 counterexample: with `MACOS_CERTIFICATE` unset, the pipeline does
fail with the specific named configuration error, but only after seven
subprocesses have already run (keychain deletion, creation,
configuration, search-path setup, and the notarization-credential
import), contradicting "no keychain-creation, credential-import, or
other tool command runs before the missing-secret check fires". -/
theorem missing_cert_cex :
    c6Env.macosCertificate = none ∧
    (mainBody c6Env allOkTools 0).1 = .error .missingCodeSigningCertificate ∧
    (main c6Env allOkTools 0).1 = 1 ∧
    countRuns (mainBody c6Env allOkTools 0).2.2 = 7 := by
  decide

lemma create_keychain_all_ok (env : Env) (pw : String) (tools : Tools) (k : Nat)
    (ht : ∀ i, (tools i).returncode = 0) :
    create_keychain env pw tools k =
      (.ok (), k + 6,
        [.run (securityDeleteKeychainCmd env),
         .run ["security", "create-keychain", "-p", pw, keychain_path env],
         .run ["security", "set-keychain-settings", "-lut", "900", keychain_path env],
         .run ["security", "unlock-keychain", "-p", pw, keychain_path env],
         .run ["/usr/bin/security", "list-keychains", "-d", "user"],
         .run (["/usr/bin/security", "list-keychains", "-d", "user", "-s"] ++
           keychain_search_path env (tools (k + 4)).stdout)]) := by
  have hd : delete_keychain env tools k =
      (.ok (), k + 1, [.run (securityDeleteKeychainCmd env)]) := rfl
  unfold create_keychain
  rw [bindS_ok_eq hd]
  simp only [bindS_ok_eq (run_command_ok (ht (k + 1))),
    bindS_ok_eq (run_command_ok (ht (k + 2))),
    bindS_ok_eq (run_command_ok (ht (k + 3))),
    bindS_ok_eq (runSubChecked_ok (ht (k + 4))),
    run_command_ok (ht (k + 5))]
  simp

lemma import_notarization_credentials_all_ok (env : Env) (pw : String) (tools : Tools)
    (k : Nat) (hpw : truthy env.notarizePassword = some pw)
    (ht : ∀ i, (tools i).returncode = 0) :
    import_notarization_credentials env tools k =
      (.ok (), k + 1, [.run (storeCredentialsCmd env pw)]) := by
  unfold import_notarization_credentials
  simp only [hpw]
  rw [bindS_ok_eq (@run_notarytool_ok (storeCredentialsCmd env pw) tools k rfl (ht k))]
  simp [pureS]

lemma import_codesigning_certificate_missing (env : Env) (tools : Tools) (k : Nat)
    (hcert : truthy env.macosCertificate = none) :
    import_codesigning_certificate env tools k =
      (.error .missingCodeSigningCertificate, k, []) := by
  unfold import_codesigning_certificate
  rw [hcert]
  rfl

/-- C6 amended: when `MACOS_CERTIFICATE` is unset or empty (and the
stages before it succeed), the pipeline fails with the specific named
`MissingCodeSigningCertificateError` and exits 1 — but the check fires
inside `import_codesigning_certificate`, after the keychain-creation and
notarization-credential-import subprocesses (seven commands) have already
run.  No certificate-import (`security import`) subprocess is ever
invoked. -/
theorem missing_cert_fails_before_import (env : Env) (a : Args) (pw : String)
    (tools : Tools) (k : Nat)
    (hparse : env.parseResult = .ok a)
    (hpw : truthy env.notarizePassword = some pw)
    (hcert : truthy env.macosCertificate = none)
    (ht : ∀ i, (tools i).returncode = 0) :
    (mainBody env tools k).1 = .error .missingCodeSigningCertificate ∧
    (main env tools k).1 = 1 ∧
    countRuns (mainBody env tools k).2.2 = 7 ∧
    ∀ c, Event.run c ∈ (mainBody env tools k).2.2 → c.take 2 ≠ ["security", "import"] := by
  have hparse' : (fun (_ : Tools) (j : Nat) => (env.parseResult, j, ([] : List Event)))
      tools k = (.ok a, k, []) := by rw [hparse]
  have hsetup : setup_codesigning_and_notarization_keychain env env.keychainPassword
      tools k = (.error .missingCodeSigningCertificate, k + 7,
        [.run (securityDeleteKeychainCmd env),
         .run ["security", "create-keychain", "-p", env.keychainPassword, keychain_path env],
         .run ["security", "set-keychain-settings", "-lut", "900", keychain_path env],
         .run ["security", "unlock-keychain", "-p", env.keychainPassword, keychain_path env],
         .run ["/usr/bin/security", "list-keychains", "-d", "user"],
         .run (["/usr/bin/security", "list-keychains", "-d", "user", "-s"] ++
           keychain_search_path env (tools (k + 4)).stdout),
         .run (storeCredentialsCmd env pw)]) := by
    unfold setup_codesigning_and_notarization_keychain
    rw [bindS_ok_eq (create_keychain_all_ok env env.keychainPassword tools k ht)]
    rw [bindS_ok_eq (import_notarization_credentials_all_ok env pw tools (k + 6) hpw ht)]
    rw [bindS_error_eq (import_codesigning_certificate_missing env tools (k + 7) hcert)]
    simp
  have hbody : mainBody env tools k = (.error .missingCodeSigningCertificate, k + 7,
      [.run (securityDeleteKeychainCmd env),
       .run ["security", "create-keychain", "-p", env.keychainPassword, keychain_path env],
       .run ["security", "set-keychain-settings", "-lut", "900", keychain_path env],
       .run ["security", "unlock-keychain", "-p", env.keychainPassword, keychain_path env],
       .run ["/usr/bin/security", "list-keychains", "-d", "user"],
       .run (["/usr/bin/security", "list-keychains", "-d", "user", "-s"] ++
         keychain_search_path env (tools (k + 4)).stdout),
       .run (storeCredentialsCmd env pw)]) := by
    unfold mainBody
    rw [bindS_ok_eq hparse']
    rw [bindS_error_eq hsetup]
    simp
  refine ⟨by rw [hbody], by rw [main_fst, hbody]; rfl, by rw [hbody]; rfl, ?_⟩
  intro c hc
  rw [hbody] at hc
  simp only [List.mem_cons, List.not_mem_nil, or_false] at hc
  rcases hc with hc | hc | hc | hc | hc | hc | hc <;> cases hc <;>
    simp [securityDeleteKeychainCmd, storeCredentialsCmd]

/-- Certificate unset, notarization password present, all tools exit 0. -/
def c6WTools : Tools := fun _ => okProc

theorem missing_cert_fails_before_import_witness :
    (mainBody c6Env c6WTools 0).1 = .error .missingCodeSigningCertificate ∧
    (main c6Env c6WTools 0).1 = 1 ∧
    countRuns (mainBody c6Env c6WTools 0).2.2 = 7 ∧
    ∀ c, Event.run c ∈ (mainBody c6Env c6WTools 0).2.2 →
      c.take 2 ≠ ["security", "import"] :=
  missing_cert_fails_before_import c6Env args0 "npw" c6WTools 0
    (by decide) (by decide) (by decide) (fun _ => rfl)

end MacosSign
